import Mathlib

/-!
Shallow embedding of the session/authentication lifecycle of the life_rank
client: the SessionManager in `src/frontend/src/contexts/AuthContext.js`
(AuthProvider: clearAuth, setAuth, isTokenExpired, refreshUser, checkAuth,
initializeAuth, login, register, googleLogin, logout, updateUser) and the
HttpClient interceptors in `src/unnamed/part_001` (the updated
`src/services/api.js`: TokenManager, request interceptor, response
interceptor) and in `src/src/services/api.js` (the legacy revision).

Modelling conventions:
* `localStorage` is a record `Store` with the three session keys.  Absent
  keys are `none`.  The expiry key is written with `toString` and read back
  with `parseInt` on a decimal string, which round-trips, so it is held as
  `Option Nat` (milliseconds since epoch).
* The serialized user is written with `JSON.stringify` and read back with
  `JSON.parse`; since every write goes through `stringify`, serialization is
  modelled as the identity on the structured record `Obj`.
* A JS object is an association list `Obj`; the spread `\x7b...a, ...b\x7d`
  is `spread a b`, whose lookup semantics is proved in `objGet_spread`.
* Network calls are oracles: each operation takes the outcome the server
  would produce as an explicit argument, and reports through its result
  whether the network was reached at all (`verifyCalled`, `rejected`).
* JS truthiness of a stored string (`!token`) is `truthyStr`: absent and
  the empty string are falsy.
* `Date.now()` is an explicit `now : Nat` argument.
-/

/-- JS object as an association list from field names to string values. -/
abbrev Obj := List (String × String)

/-- Field lookup on a JS object: the first binding of the key, if any. -/
def objGet (o : Obj) (k : String) : Option String :=
  (o.find? (fun p => p.1 == k)).map (fun p => p.2)

/-- JS object spread: keys of `b` override keys of `a`. -/
def spread (a b : Obj) : Obj :=
  a.filter (fun p => (objGet b p.1).isNone) ++ b

/-- JS truthiness of a possibly-absent string: `null` and `""` are falsy. -/
def truthyStr : Option String → Bool
  | none => false
  | some s => !(s == "")

/-- The three `localStorage` keys the session lifecycle uses:
`access_token`, `user` (serialized), `token_expires_at`. -/
structure Store where
  access_token : Option String
  user : Option Obj
  token_expires_at : Option Nat
deriving DecidableEq, Repr

/-- Store with none of the three session keys present. -/
def emptyStore : Store := ⟨none, none, none⟩

/-- SessionManager state: persistent store plus the React state.  `user` is
the in-memory current user, `isLoading` and `isInitialized` the exposed
flags (initial values `true` and `false` from the `useState` calls). -/
structure SessionState where
  store : Store
  user : Option Obj
  isLoading : Bool
  isInitialized : Bool
deriving DecidableEq, Repr

/-- Derived flag: `isAuthenticated = !!user`. -/
def isAuthenticated (st : SessionState) : Bool := st.user.isSome

/-- AuthContext `clearAuth`: remove the three keys, set `user` to null. -/
def clearAuthState (st : SessionState) : SessionState :=
  { st with store := emptyStore, user := none }

/-- Server/user response carried by a successful login/register/google
call: `\x7b access_token, user \x7d`. -/
structure TokenResponse where
  access_token : String
  user : Obj
deriving DecidableEq, Repr

/-- AuthContext `setAuth`: write token, serialized user, and
`expiresAt = Date.now() + 30 * 60 * 1000` to storage, set the user. -/
def setAuth (st : SessionState) (now : Nat) (td : TokenResponse) : SessionState :=
  { st with
    store := ⟨some td.access_token, some td.user, some (now + 30 * 60 * 1000)⟩,
    user := some td.user }

/-- AuthContext / TokenManager `isTokenExpired`: expired when the
`token_expires_at` key is absent, otherwise when `Date.now()` is strictly
past the stored timestamp. -/
def isTokenExpired (s : Store) (now : Nat) : Bool :=
  match s.token_expires_at with
  | none => true
  | some e => decide (now > e)

/-- Axios failure as the interceptors and catch blocks see it: an HTTP
response with a status and optional `data.detail`, or a request that got no
response (network/timeout). -/
inductive ApiFailure where
  | http (status : Nat) (detail : Option String)
  | network
deriving DecidableEq, Repr

/-- JS `error.response?.status`. -/
def ApiFailure.status? : ApiFailure → Option Nat
  | .http s _ => some s
  | .network => none

/-- JS `error.response?.data?.detail`. -/
def ApiFailure.detail? : ApiFailure → Option String
  | .http _ d => d
  | .network => none

/-- Outcome oracle for a login/register/google network call. -/
inductive AuthOutcome where
  | ok (resp : TokenResponse)
  | fail (e : ApiFailure)
deriving DecidableEq, Repr

/-- AuthContext `login`: on success commit the response via `setAuth`; on
failure leave the session untouched and reject with
`error.response?.data?.detail || 'Login failed'`.  The `finally` block
clears `isLoading` on both paths. -/
def login (st : SessionState) (now : Nat) (outcome : AuthOutcome) :
    SessionState × Except String Unit :=
  match outcome with
  | .ok resp => ({ setAuth st now resp with isLoading := false }, .ok ())
  | .fail e =>
      ({ st with isLoading := false }, .error ((ApiFailure.detail? e).getD "Login failed"))

/-- AuthContext `register`: identical shape to `login` with its own
fallback message. -/
def register (st : SessionState) (now : Nat) (outcome : AuthOutcome) :
    SessionState × Except String Unit :=
  match outcome with
  | .ok resp => ({ setAuth st now resp with isLoading := false }, .ok ())
  | .fail e =>
      ({ st with isLoading := false }, .error ((ApiFailure.detail? e).getD "Registration failed"))

/-- AuthContext `googleLogin`: identical shape to `login` with its own
fallback message. -/
def googleLogin (st : SessionState) (now : Nat) (outcome : AuthOutcome) :
    SessionState × Except String Unit :=
  match outcome with
  | .ok resp => ({ setAuth st now resp with isLoading := false }, .ok ())
  | .fail e =>
      ({ st with isLoading := false }, .error ((ApiFailure.detail? e).getD "Google login failed"))

/-- Outcome oracle for a profile-update (`PUT /users/me`) call. -/
inductive UpdateOutcome where
  | ok (resp : Obj)
  | fail (e : ApiFailure)
deriving DecidableEq, Repr

/-- AuthContext `updateUser`: on success persist and adopt the server's
response wholesale and return it; on failure leave state untouched and
reject with `error.response?.data?.detail || 'Update failed'`. -/
def updateUser (st : SessionState) (outcome : UpdateOutcome) :
    SessionState × Except String Obj :=
  match outcome with
  | .ok resp =>
      ({ st with store := { st.store with user := some resp }, user := some resp }, .ok resp)
  | .fail e => (st, .error ((ApiFailure.detail? e).getD "Update failed"))

/-- Outcome oracle for a profile-fetch (`GET /users/me`) call. -/
inductive FetchOutcome where
  | ok (data : Obj)
  | fail (e : ApiFailure)
deriving DecidableEq, Repr

/-- AuthContext `refreshUser`: on success shallow-merge the fetched data
over the current user (`\x7b ...user, ...userData \x7d`), persist and adopt
it; on failure (the catch block) return the unchanged current user.  The
codomain has no error branch: the function never throws to its caller. -/
def refreshUser (st : SessionState) (outcome : FetchOutcome) :
    SessionState × Option Obj :=
  match outcome with
  | .ok data =>
      let updated := spread (st.user.getD []) data
      ({ st with store := { st.store with user := some updated }, user := some updated },
        some updated)
  | .fail _ => (st, st.user)

/-- Result of AuthContext `logout`: the new state, the navigation target,
and the list of HTTP requests the body performs (none: the body is
`clearAuth` plus a `window.location.href` assignment). -/
structure LogoutOut where
  state : SessionState
  redirectTo : Option String
  netCalls : List String
deriving DecidableEq, Repr

/-- AuthContext `logout`: `clearAuth` then redirect to `/login`; no
network request is issued. -/
def logout (st : SessionState) : LogoutOut :=
  ⟨clearAuthState st, some "/login", []⟩

/-- Outcome oracle for the `POST /auth/verify-token` call. -/
inductive VerifyOutcome where
  | ok
  | fail (e : ApiFailure)
deriving DecidableEq, Repr

/-- Result of AuthContext `checkAuth`: the new state, the returned boolean,
and whether the verify network call was actually issued. -/
structure CheckAuthOut where
  state : SessionState
  result : Bool
  verifyCalled : Bool
deriving DecidableEq, Repr

/-- AuthContext `checkAuth`: read token and saved user; if either is falsy
return false untouched; if the token is locally expired, `clearAuth` and
return false without any network call; otherwise verify with the server:
success adopts the saved user; a 401/403 failure clears auth; any other
failure adopts the saved user and returns true. -/
def checkAuth (st : SessionState) (now : Nat) (v : VerifyOutcome) : CheckAuthOut :=
  match st.store.user with
  | some savedUser =>
      if truthyStr st.store.access_token then
        if isTokenExpired st.store now then
          ⟨clearAuthState st, false, false⟩
        else
          match v with
          | .ok => ⟨{ st with user := some savedUser }, true, true⟩
          | .fail e =>
              if e.status? == some 401 || e.status? == some 403 then
                ⟨clearAuthState st, false, true⟩
              else
                ⟨{ st with user := some savedUser }, true, true⟩
      else ⟨st, false, false⟩
  | none => ⟨st, false, false⟩

/-- SessionManager state at process start: arbitrary persisted store, no
user, `isLoading = true`, `isInitialized = false` (the `useState`
initials). -/
def initialState (store : Store) : SessionState :=
  ⟨store, none, true, false⟩

/-- Snapshots of the observable state during `initializeAuth`, in program
order: the initial state, the state after `await checkAuth()` resolves the
authenticated/unauthenticated determination, the state after
`setIsLoading(false)`, and the state after `setIsInitialized(true)` in the
`finally` block. -/
def initTrace (store : Store) (now : Nat) (v : VerifyOutcome) : List SessionState :=
  let s0 := initialState store
  let s1 := (checkAuth s0 now v).state
  let s2 := { s1 with isLoading := false }
  [s0, s1, s2, { s2 with isInitialized := true }]

/-- TokenManager `removeToken` from the updated client
(`src/unnamed/part_001`): remove all three session keys. -/
def removeToken (_s : Store) : Store := emptyStore

/-- Result of running the updated client's request interceptor on one
outgoing request: the store it leaves behind, the Authorization header it
attaches, whether it rejected the request (so no network round trip
happens), and whether it navigated to `/login`. -/
structure ReqOut where
  store : Store
  authHeader : Option String
  rejected : Bool
  redirected : Bool
deriving DecidableEq, Repr

/-- Character-list test: the second list starts with the first. -/
def leadsWith : List Char → List Char → Bool
  | [], _ => true
  | _ :: _, [] => false
  | a :: as, b :: bs => a == b && leadsWith as bs

/-- Character-list substring test. -/
def hasSub (pat : List Char) : List Char → Bool
  | [] => leadsWith pat []
  | c :: rest => leadsWith pat (c :: rest) || hasSub pat rest

/-- JS `s.includes(pat)`. -/
def strIncludes (s pat : String) : Bool := hasSub pat.data s.data

/-- Request interceptor of the updated client (`src/unnamed/part_001`):
attach `Bearer` when a token is stored and not locally expired; when the
stored token is expired, `removeToken`, and unless the URL contains
`/auth/`, redirect to `/login` and reject so the round trip never
happens. -/
def requestInterceptor (s : Store) (now : Nat) (url : String) : ReqOut :=
  if truthyStr s.access_token then
    if !isTokenExpired s now then
      ⟨s, s.access_token.map (fun t => "Bearer " ++ t), false, false⟩
    else
      let s' := removeToken s
      if !strIncludes url "/auth/" then ⟨s', none, true, true⟩
      else ⟨s', none, false, false⟩
  else ⟨s, none, false, false⟩

/-- Request interceptor of the legacy client (`src/src/services/api.js`
lines 14–20): attach the stored token whenever truthy, with no expiry
check. -/
def legacyRequestHeader (s : Store) : Option String :=
  if truthyStr s.access_token then s.access_token.map (fun t => "Bearer " ++ t)
  else none

/-- The 401 cleanup performed by the response interceptor of the legacy
client (`src/src/services/api.js` lines 23–33): it removes `access_token`
and `user` but not `token_expires_at`. -/
def legacyAuthRejectionCleanup (s : Store) : Store :=
  { s with access_token := none, user := none }

/-- The 401/403 cleanup performed by the response interceptor of the
updated client (`src/unnamed/part_001`): `TokenManager.removeToken`. -/
def updatedAuthRejectionCleanup (s : Store) : Store := removeToken s

/-- Storage invariant claimed by the spec: the access-token key is present
exactly when the expiry-timestamp key is present. -/
def tokenExpiryInv (s : Store) : Bool :=
  s.access_token.isSome == s.token_expires_at.isSome

/-! Helper lemmas: lookup semantics of the JS object spread. -/

theorem objGet_eq_none_iff (o : Obj) (k : String) :
    objGet o k = none ↔ o.find? (fun p => p.1 == k) = none := by
  simp [objGet]

theorem objGet_append (a b : Obj) (k : String) :
    objGet (a ++ b) k = (objGet a k).or (objGet b k) := by
  unfold objGet
  rw [List.find?_append]
  cases a.find? (fun p => p.1 == k) <;> simp [Option.or]

theorem objGet_cons (p : String × String) (t : Obj) (k : String) :
    objGet (p :: t) k = if (p.1 == k) = true then some p.2 else objGet t k := by
  by_cases h : (p.1 == k) = true <;> simp [objGet, h]

theorem objGet_filter_of_none (a b : Obj) (k : String) (h : objGet b k = none) :
    objGet (a.filter (fun p => (objGet b p.1).isNone)) k = objGet a k := by
  induction a with
  | nil => rfl
  | cons p t ih =>
    rw [List.filter_cons, objGet_cons]
    by_cases hq : (objGet b p.1).isNone = true
    · rw [if_pos hq, objGet_cons]
      by_cases hk : (p.1 == k) = true
      · rw [if_pos hk, if_pos hk]
      · rw [if_neg hk, if_neg hk]
        exact ih
    · have hk : (p.1 == k) = false := by
        cases hkk : (p.1 == k) with
        | false => rfl
        | true =>
            exfalso
            have hpk : p.1 = k := by simpa using hkk
            rw [hpk, h] at hq
            exact hq rfl
      rw [if_neg hq, if_neg (by simp [hk])]
      exact ih

theorem objGet_filter_of_some (a b : Obj) (k v : String) (h : objGet b k = some v) :
    objGet (a.filter (fun p => (objGet b p.1).isNone)) k = none := by
  rw [objGet_eq_none_iff, List.find?_eq_none]
  intro x hx hpx
  have hx1 : x.1 = k := by simpa using hpx
  have hqx := (List.mem_filter.1 hx).2
  rw [hx1, h] at hqx
  simp at hqx

theorem objGet_spread (a b : Obj) (k : String) :
    objGet (spread a b) k =
      if (objGet b k).isSome then objGet b k else objGet a k := by
  unfold spread
  rw [objGet_append]
  cases h : objGet b k with
  | none =>
      rw [objGet_filter_of_none a b k h]
      cases objGet a k <;> rfl
  | some v =>
      rw [objGet_filter_of_some a b k v h]
      rfl

/-! Claim theorems. -/

/-- C1: the claimed invariant "access-token key present iff expiry key
present" is established by a successful login from the empty store, but the
legacy response interceptor's 401 cleanup (`src/src/services/api.js`) then
removes the token and the user while leaving the expiry key behind, so the
store it produces violates the invariant. -/
theorem legacy_cleanup_breaks_token_expiry_inv :
    tokenExpiryInv (login (initialState emptyStore) 1000
        (.ok ⟨"T", [("email", "a@b.com")]⟩)).1.store = true ∧
    tokenExpiryInv (legacyAuthRejectionCleanup
        (login (initialState emptyStore) 1000
          (.ok ⟨"T", [("email", "a@b.com")]⟩)).1.store) = false ∧
    (legacyAuthRejectionCleanup
        (login (initialState emptyStore) 1000
          (.ok ⟨"T", [("email", "a@b.com")]⟩)).1.store).access_token = none ∧
    (legacyAuthRejectionCleanup
        (login (initialState emptyStore) 1000
          (.ok ⟨"T", [("email", "a@b.com")]⟩)).1.store).token_expires_at = some 1801000 := by
  exact ⟨rfl, rfl, rfl, rfl⟩

/-- C8: after logout the store holds none of the three session keys, the
user is absent so isAuthenticated is false, the body performs no network
call, and logout is idempotent. -/
theorem logout_clears_and_is_idempotent (st : SessionState) :
    (logout st).state.store = emptyStore ∧
    (logout st).state.user = none ∧
    isAuthenticated (logout st).state = false ∧
    (logout st).netCalls = [] ∧
    logout (logout st).state = logout st := by
  exact ⟨rfl, rfl, rfl, rfl, rfl⟩

/-- C4: a successful login commits the response token, the response user,
and an expiry of now plus 30 minutes to storage, adopts the user, and
authenticates; a failed login leaves store and user untouched and reports
the server detail, falling back to "Login failed". -/
theorem login_commit_and_failure (st : SessionState) (now : Nat)
    (resp : TokenResponse) (e : ApiFailure) :
    (login st now (.ok resp)).1.store =
      ⟨some resp.access_token, some resp.user, some (now + 30 * 60 * 1000)⟩ ∧
    (login st now (.ok resp)).1.user = some resp.user ∧
    isAuthenticated (login st now (.ok resp)).1 = true ∧
    (login st now (.fail e)).1.store = st.store ∧
    (login st now (.fail e)).1.user = st.user ∧
    (login st now (.fail e)).2 =
      .error ((ApiFailure.detail? e).getD "Login failed") := by
  exact ⟨rfl, rfl, rfl, rfl, rfl, rfl⟩

/-- C6: a successful updateUser replaces the in-memory and stored user
wholesale with the server response and returns it; a failed updateUser
leaves the state unchanged and reports the server detail, falling back to
"Update failed".  The last conjunct shows the replacement is not a shallow
patch: a field present only in the prior user is dropped. -/
theorem updateUser_wholesale_and_failure (st : SessionState) (resp : Obj)
    (e : ApiFailure) :
    (updateUser st (.ok resp)).1.user = some resp ∧
    (updateUser st (.ok resp)).1.store.user = some resp ∧
    (updateUser st (.ok resp)).2 = .ok resp ∧
    (updateUser st (.fail e)).1 = st ∧
    (updateUser st (.fail e)).2 =
      .error ((ApiFailure.detail? e).getD "Update failed") ∧
    (updateUser ⟨emptyStore, some [("email", "a@b.com"), ("location", "Lund")],
        false, true⟩ (.ok [("location", "Oslo")])).1.user =
      some [("location", "Oslo")] := by
  exact ⟨rfl, rfl, rfl, rfl, rfl, rfl⟩

/-- C7: a successful refreshUser adopts, persists and returns the shallow
merge of the fetched data over the current user, where server fields win
and fields the server did not return are preserved; a failed refreshUser
returns the unchanged current user without modifying any state (its
codomain has no error branch, so it never throws); in particular a second
call whose fetch fails keeps the user established by a first successful
call. -/
theorem refreshUser_merge_and_failure (st : SessionState) (d : Obj)
    (e e' : ApiFailure) (k : String) :
    (refreshUser st (.ok d)).1.user = some (spread (st.user.getD []) d) ∧
    (refreshUser st (.ok d)).1.store.user = some (spread (st.user.getD []) d) ∧
    (refreshUser st (.ok d)).2 = some (spread (st.user.getD []) d) ∧
    objGet (spread (st.user.getD []) d) k =
      (if (objGet d k).isSome then objGet d k else objGet (st.user.getD []) k) ∧
    (refreshUser st (.fail e)).1 = st ∧
    (refreshUser st (.fail e)).2 = st.user ∧
    (refreshUser (refreshUser st (.ok d)).1 (.fail e')).1.user =
      (refreshUser st (.ok d)).1.user ∧
    (refreshUser (refreshUser st (.ok d)).1 (.fail e')).2 =
      (refreshUser st (.ok d)).1.user := by
  exact ⟨rfl, rfl, rfl, objGet_spread _ _ _, rfl, rfl, rfl, rfl⟩

/-- C3: given a stored (truthy) token, a stored user, and an expiry
timestamp strictly in the past, checkAuth clears all session storage,
yields unauthenticated, and never issues the verify network call,
whatever the server would have answered. -/
theorem checkAuth_expired_no_network (store : Store) (now exp : Nat)
    (u : Obj) (v : VerifyOutcome)
    (htok : truthyStr store.access_token = true)
    (huser : store.user = some u)
    (hexp : store.token_expires_at = some exp)
    (hpast : now > exp) :
    checkAuth (initialState store) now v =
      ⟨clearAuthState (initialState store), false, false⟩ ∧
    (checkAuth (initialState store) now v).state.store = emptyStore ∧
    isAuthenticated (checkAuth (initialState store) now v).state = false ∧
    (checkAuth (initialState store) now v).verifyCalled = false := by
  have hex : isTokenExpired store now = true := by
    simp [isTokenExpired, hexp, hpast]
  have h1 : checkAuth (initialState store) now v =
      ⟨clearAuthState (initialState store), false, false⟩ := by
    simp [checkAuth, initialState, huser, htok, hex]
  refine ⟨h1, ?_, ?_, ?_⟩ <;> rw [h1] <;> rfl

/-- Witness for C3 at a concrete expired session. -/
theorem checkAuth_expired_no_network_w :
    checkAuth (initialState ⟨some "T", some [("email", "a@b.com")], some 100⟩)
        200 .ok =
      ⟨clearAuthState
        (initialState ⟨some "T", some [("email", "a@b.com")], some 100⟩),
        false, false⟩ :=
  (checkAuth_expired_no_network ⟨some "T", some [("email", "a@b.com")], some 100⟩
    200 100 [("email", "a@b.com")] .ok (by decide) rfl rfl (by decide)).1

/-- C10: given a stored (truthy) token and a stored user but no
expiry-timestamp key, the token counts as already expired: checkAuth clears
all session storage, yields unauthenticated, and never issues the verify
network call. -/
theorem checkAuth_no_expiry_key_treated_expired (store : Store) (now : Nat)
    (u : Obj) (v : VerifyOutcome)
    (htok : truthyStr store.access_token = true)
    (huser : store.user = some u)
    (hexp : store.token_expires_at = none) :
    checkAuth (initialState store) now v =
      ⟨clearAuthState (initialState store), false, false⟩ ∧
    (checkAuth (initialState store) now v).state.store = emptyStore ∧
    isAuthenticated (checkAuth (initialState store) now v).state = false ∧
    (checkAuth (initialState store) now v).verifyCalled = false := by
  have hex : isTokenExpired store now = true := by
    simp [isTokenExpired, hexp]
  have h1 : checkAuth (initialState store) now v =
      ⟨clearAuthState (initialState store), false, false⟩ := by
    simp [checkAuth, initialState, huser, htok, hex]
  refine ⟨h1, ?_, ?_, ?_⟩ <;> rw [h1] <;> rfl

/-- Witness for C10 at a concrete store lacking the expiry key. -/
theorem checkAuth_no_expiry_key_treated_expired_w :
    checkAuth (initialState ⟨some "T", some [("email", "a@b.com")], none⟩)
        200 .ok =
      ⟨clearAuthState
        (initialState ⟨some "T", some [("email", "a@b.com")], none⟩),
        false, false⟩ :=
  (checkAuth_no_expiry_key_treated_expired
    ⟨some "T", some [("email", "a@b.com")], none⟩
    200 [("email", "a@b.com")] .ok (by decide) rfl rfl).1

/-- C2: given a stored (truthy) token, a stored user, and an unexpired
timestamp, a verify failure with HTTP status 401 or 403 makes checkAuth
clear all session storage and yield unauthenticated, while a verify failure
with any other status or with no response at all leaves storage untouched,
adopts the stored user, and yields authenticated. -/
theorem checkAuth_verify_failure_paths (store : Store) (now exp : Nat)
    (u : Obj) (e : ApiFailure)
    (htok : truthyStr store.access_token = true)
    (huser : store.user = some u)
    (hexp : store.token_expires_at = some exp)
    (hfut : now ≤ exp) :
    ((e.status? = some 401 ∨ e.status? = some 403) →
      checkAuth (initialState store) now (.fail e) =
        ⟨clearAuthState (initialState store), false, true⟩) ∧
    (e.status? ≠ some 401 → e.status? ≠ some 403 →
      (checkAuth (initialState store) now (.fail e)).state.store = store ∧
      (checkAuth (initialState store) now (.fail e)).state.user = some u ∧
      (checkAuth (initialState store) now (.fail e)).result = true ∧
      isAuthenticated (checkAuth (initialState store) now (.fail e)).state
        = true) := by
  have hex : isTokenExpired store now = false := by
    have : ¬ now > exp := by omega
    simp [isTokenExpired, hexp, this]
  constructor
  · intro h
    have hb : (e.status? == some 401 || e.status? == some 403) = true := by
      rcases h with h | h <;> simp [h]
    simp [checkAuth, initialState, huser, htok, hex, hb]
  · intro h1 h2
    have hb : (e.status? == some 401 || e.status? == some 403) = false := by
      simp [h1, h2]
    have hr : checkAuth (initialState store) now (.fail e) =
        ⟨{ initialState store with user := some u }, true, true⟩ := by
      simp [checkAuth, initialState, huser, htok, hex, hb]
    refine ⟨?_, ?_, ?_, ?_⟩ <;> rw [hr] <;> rfl

/-- Witness for C2 at a concrete session: a 401 clears the session, a
response-less network failure keeps the stored user authenticated with
storage untouched. -/
theorem checkAuth_verify_failure_paths_w :
    checkAuth (initialState ⟨some "T", some [("email", "a@b.com")], some 200⟩)
        100 (.fail (.http 401 none)) =
      ⟨clearAuthState
        (initialState ⟨some "T", some [("email", "a@b.com")], some 200⟩),
        false, true⟩ ∧
    (checkAuth (initialState ⟨some "T", some [("email", "a@b.com")], some 200⟩)
        100 (.fail .network)).result = true ∧
    (checkAuth (initialState ⟨some "T", some [("email", "a@b.com")], some 200⟩)
        100 (.fail .network)).state.store =
      ⟨some "T", some [("email", "a@b.com")], some 200⟩ := by
  refine ⟨?_, ?_, ?_⟩
  · exact (checkAuth_verify_failure_paths
      ⟨some "T", some [("email", "a@b.com")], some 200⟩ 100 200
      [("email", "a@b.com")] (.http 401 none)
      (by decide) rfl rfl (by decide)).1 (Or.inl rfl)
  · exact ((checkAuth_verify_failure_paths
      ⟨some "T", some [("email", "a@b.com")], some 200⟩ 100 200
      [("email", "a@b.com")] .network
      (by decide) rfl rfl (by decide)).2 (by decide) (by decide)).2.2.1
  · exact ((checkAuth_verify_failure_paths
      ⟨some "T", some [("email", "a@b.com")], some 200⟩ 100 200
      [("email", "a@b.com")] .network
      (by decide) rfl rfl (by decide)).2 (by decide) (by decide)).1

/-- Helper: checkAuth never touches the isLoading and isInitialized flags;
only the finally block of initializeAuth does. -/
theorem checkAuth_preserves_flags (st : SessionState) (now : Nat)
    (v : VerifyOutcome) :
    (checkAuth st now v).state.isLoading = st.isLoading ∧
    (checkAuth st now v).state.isInitialized = st.isInitialized := by
  unfold checkAuth
  repeat' split
  all_goals exact ⟨rfl, rfl⟩

/-- C9: along the initializeAuth snapshot trace, every observable state
showing isLoading = false together with isInitialized = true already
carries the store and user of the resolved checkAuth determination (so the
flags are never both in their final position while the startup decision is
pending), and the trace ends with exactly the resolved state carrying
isLoading = false and isInitialized = true. -/
theorem init_flags_only_after_resolution (store : Store) (now : Nat)
    (v : VerifyOutcome) :
    (∀ s ∈ initTrace store now v,
      s.isLoading = false ∧ s.isInitialized = true →
        s.store = (checkAuth (initialState store) now v).state.store ∧
        s.user = (checkAuth (initialState store) now v).state.user) ∧
    (initTrace store now v).getLast? =
      some { (checkAuth (initialState store) now v).state with
              isLoading := false, isInitialized := true } := by
  have hinit : (checkAuth (initialState store) now v).state.isInitialized
      = false :=
    (checkAuth_preserves_flags (initialState store) now v).2
  constructor
  · intro s hs hflags
    have hmem : s = initialState store ∨
        s = (checkAuth (initialState store) now v).state ∨
        s = { (checkAuth (initialState store) now v).state with
                isLoading := false } ∨
        s = { { (checkAuth (initialState store) now v).state with
                isLoading := false } with isInitialized := true } := by
      simpa [initTrace] using hs
    rcases hmem with h | h | h | h
    · rw [h] at hflags
      exact absurd hflags.1 (by simp [initialState])
    · rw [h] at hflags
      exact absurd (hinit.symm.trans hflags.2) (by simp)
    · rw [h] at hflags
      exact absurd (hinit.symm.trans hflags.2) (by simp)
    · subst h
      exact ⟨rfl, rfl⟩
  · rfl

/-- Witness for C9: at a concrete store with a valid unexpired session and
a successful verify, the final trace element carries both flags and the
resolved determination. -/
theorem init_flags_only_after_resolution_w :
    (⟨⟨some "T", some [("email", "a@b.com")], some 200⟩,
        some [("email", "a@b.com")], false, true⟩ : SessionState).user =
      (checkAuth
        (initialState ⟨some "T", some [("email", "a@b.com")], some 200⟩)
        100 .ok).state.user :=
  ((init_flags_only_after_resolution
      ⟨some "T", some [("email", "a@b.com")], some 200⟩ 100 .ok).1
    ⟨⟨some "T", some [("email", "a@b.com")], some 200⟩,
      some [("email", "a@b.com")], false, true⟩
    (by decide) (by decide)).2

/-- C5 counterexample: `/auth/verify-token` consumes a credential rather
than establishing one, yet with a stored, locally-expired token the updated
request interceptor does not surface an immediate authentication failure:
it clears the credentials and lets the network round trip proceed without
a bearer header. -/
theorem verify_token_not_rejected_when_expired :
    isTokenExpired ⟨some "T", some [("email", "a@b.com")], some 100⟩ 200
      = true ∧
    (requestInterceptor ⟨some "T", some [("email", "a@b.com")], some 100⟩ 200
        "/auth/verify-token").rejected = false ∧
    (requestInterceptor ⟨some "T", some [("email", "a@b.com")], some 100⟩ 200
        "/auth/verify-token").redirected = false ∧
    (requestInterceptor ⟨some "T", some [("email", "a@b.com")], some 100⟩ 200
        "/auth/verify-token").authHeader = none := by
  refine ⟨rfl, ?_, ?_, ?_⟩ <;> rfl

/-- C5 amended: in the updated client, a request carrying a stored but
locally-expired token never gets the token attached and always has the
stored credentials cleared; when the URL does not contain "/auth/" the
request is additionally rejected at once with a redirect to login, so the
network round trip never happens; every URL containing "/auth/" — login,
register, the external-identity exchange, but also token verification — is
exempt from the immediate rejection and proceeds without a bearer
header. -/
theorem request_interceptor_expired_policy (s : Store) (now : Nat)
    (url : String)
    (htok : truthyStr s.access_token = true)
    (hexp : isTokenExpired s now = true) :
    (requestInterceptor s now url).authHeader = none ∧
    (requestInterceptor s now url).store = emptyStore ∧
    (strIncludes url "/auth/" = false →
      requestInterceptor s now url = ⟨emptyStore, none, true, true⟩) ∧
    (strIncludes url "/auth/" = true →
      requestInterceptor s now url = ⟨emptyStore, none, false, false⟩) := by
  cases hu : strIncludes url "/auth/" with
  | false =>
      have h1 : requestInterceptor s now url = ⟨emptyStore, none, true, true⟩ := by
        simp [requestInterceptor, htok, hexp, hu, removeToken]
      exact ⟨by rw [h1], by rw [h1], fun _ => h1, fun hc => by simp [hu] at hc⟩
  | true =>
      have h1 : requestInterceptor s now url
          = ⟨emptyStore, none, false, false⟩ := by
        simp [requestInterceptor, htok, hexp, hu, removeToken]
      exact ⟨by rw [h1], by rw [h1], fun hc => by simp [hu] at hc, fun _ => h1⟩

/-- Witness for the amended C5 at concrete requests: an expired token on a
protected URL is rejected without the round trip, while an expired token on
an auth URL proceeds (unrejected) with credentials cleared. -/
theorem request_interceptor_expired_policy_w :
    requestInterceptor ⟨some "T", some [("email", "a@b.com")], some 100⟩ 200
        "/users/me" = ⟨emptyStore, none, true, true⟩ ∧
    requestInterceptor ⟨some "T", some [("email", "a@b.com")], some 100⟩ 200
        "/auth/login" = ⟨emptyStore, none, false, false⟩ := by
  constructor
  · exact (request_interceptor_expired_policy
      ⟨some "T", some [("email", "a@b.com")], some 100⟩ 200 "/users/me"
      (by decide) (by decide)).2.2.1 (by decide)
  · exact (request_interceptor_expired_policy
      ⟨some "T", some [("email", "a@b.com")], some 100⟩ 200 "/auth/login"
      (by decide) (by decide)).2.2.2 (by decide)
